import Mathlib

/-!
Verification of the servicelog command-line utilities (power-ras/servicelog).

This file gives a shallow embedding, in Lean 4, of the pieces of the
repository's C sources that the specification's claims are about:

* the v0.2.9-to-v1 legacy filter translator and the `--add` registration
  logic of `src/servicelog_notify.c` (including its `getopt` parse loop),
* the flag validation and query construction of `src/v29_servicelog.c`,
* the legacy/modern flag dispatcher of `src/servicelog_switch.c`,
* the date-parsing parent logic of `src/log_repair_action.c`,
* the `--clean` scan of `src/v29_servicelog_manage.c`.

Machine integers are modelled as `Nat`/`Int` with explicit `% 2 ^ 64`
where a C conversion to `size_t` matters.  Calls into the external
`libservicelog` library (database open/query/insert, and the two helper
functions `v29_types_to_v1_match` / `convert_type_to_v29` that live in
the library, not in this repository) are treated as opaque: the theorems
are universally quantified over their behaviour via the `Lib` record.
-/

/-! ## String helpers (C `strncmp`-prefix tests and `strstr`) -/

/-- Prefix test on the underlying character lists.  `strncmp(s, p, strlen(p)) == 0`
in C is exactly "`p` is a prefix of `s`". -/
def strPfx (p s : String) : Bool := p.data.isPrefixOf s.data

/-- Helper for `hasSub`: does `n` occur as a contiguous sublist of the second list? -/
def subAux (n : List Char) : List Char → Bool
  | [] => n.isEmpty
  | c :: t => n.isPrefixOf (c :: t) || subAux n t

/-- C `strstr(hay, needle) != NULL`: `needle` occurs contiguously in `hay`. -/
def hasSub (needle hay : String) : Bool := subAux needle.data hay.data

/-! ## Constants from the servicelog headers

The `SL_QUERY_*` constants come from the external library header.  Their
values are pinned by the code of this repository itself: `v29_servicelog.c`
zeroes its `struct sl_query` with `memset`, so the unset default must be
`SL_QUERY_ALL = 0`, and `servicelog_notify.c` tests `servicable < 2` with
the comment "Yes or All", so `SL_QUERY_YES = 1` and `SL_QUERY_NO = 2`. -/

def SL_QUERY_ALL : ℕ := 0
def SL_QUERY_YES : ℕ := 1
def SL_QUERY_NO : ℕ := 2

/-- Notification type bits of `servicelog_notify.c` (`#define TYPE_EVENTS 0x1`,
`#define TYPE_REPAIRS 0x2`). -/
def TYPE_EVENTS : ℕ := 1

def TYPE_REPAIRS : ℕ := 2

/-- The v1 event type enumerators of the library header, used only as inputs to
the opaque library function `convert_type_to_v29`; their concrete values never
matter to any theorem below because that function is universally quantified. -/
def SL_TYPE_OS : ℕ := 2

def SL_TYPE_RTAS : ℕ := 3

def SL_TYPE_ENCLOSURE : ℕ := 4

/-- The two library helpers declared `extern` in `servicelog_notify.c` but
defined in the external `libservicelog` (outside this repository):
`convert_type_to_v29` maps a v1 type enumerator to a v0.2.9 bit position and
`v29_types_to_v1_match` renders a nonempty v0.2.9 type bitmap as a v1 match
clause.  Theorems quantify over this record. -/
structure Lib where
  conv : ℕ → ℕ
  tc : ℕ → String

/-! ## The legacy filter translator of `servicelog_notify.c` (lines 353-423)

The translator writes into the 1024-byte buffer `type_match`.  At the string
level (i.e. in the regime where no `snprintf` output is truncated), the text
produced by the sequence of appends is a function of three parsed values:
the (single, last-wins) `--type` argument, the `--severity` argument, and
the validated `--serviceable` value. -/

structure FilterIn where
  typeTmp : Option String
  tSev : Option String
  servicable : ℕ

/-- The `type_bitmap` computed at lines 371-379: `strstr` probes for the three
recognized v0.2.9 tokens, each setting bit `1 << convert_type_to_v29(...)`. -/
def typeBitmap (L : Lib) (t : String) : ℕ :=
  (if hasSub "ppc64_rtas" t then 2 ^ L.conv SL_TYPE_RTAS else 0) |||
  (if hasSub "os" t then 2 ^ L.conv SL_TYPE_OS else 0) |||
  (if hasSub "ppc64_encl" t then 2 ^ L.conv SL_TYPE_ENCLOSURE else 0)

/-- The exact sequence of appends performed on the `type_match` buffer, in
program order, each paired with a flag saying whether it is one of the two
`snprintf` calls (`true`) or the library call `v29_types_to_v1_match`
(`false`).  Each element is the full text handed to the call, with the
`connector` prefix included exactly as in the `"%s severity>=%s"` /
`"%s serviceable=0"` / `"%s serviceable=1"` format strings (note the literal
space after the `%s` connector).  Mirrors lines 353-384 and 405-423. -/
def appendTexts (L : Lib) (st : FilterIn) : List (Bool × String) :=
  let (l1, c1) :=
    match st.typeTmp with
    | some t =>
      if typeBitmap L t ≠ 0 then ([(false, L.tc (typeBitmap L t))], " and ")
      else (([] : List (Bool × String)), "")
    | none => ([], "")
  let (l2, c2) :=
    match st.tSev with
    | some v => (l1 ++ [(true, c1 ++ " severity>=" ++ v)], " and ")
    | none => (l1, c1)
  if st.servicable ≠ 0 then
    if st.servicable = SL_QUERY_NO then l2 ++ [(true, c2 ++ " serviceable=0")]
    else if st.servicable = SL_QUERY_YES then l2 ++ [(true, c2 ++ " serviceable=1")]
    else l2
  else l2

/-- Concatenation of a list of strings (the effect of consecutive appends). -/
def strConcat : List String → String
  | [] => ""
  | s :: t => s ++ strConcat t

/-- The synthesized legacy filter: the contents of the `type_match` buffer
after all appends, in the regime where nothing is truncated. -/
def typeMatch (L : Lib) (st : FilterIn) : String :=
  strConcat ((appendTexts L st).map Prod.snd)

/-! Specification-side view of the same string: an ordered list of clauses
joined by a single `" and "` connector.  Each clause is written exactly as the
code emits it (the severity and serviceable clauses begin with the literal
space of the `snprintf` format). -/

/-- The type-derived clause, present iff the `--type` bitmap is nonzero. -/
def typeClauseOf (L : Lib) (t : Option String) : List String :=
  match t with
  | some s => if typeBitmap L s ≠ 0 then [L.tc (typeBitmap L s)] else []
  | none => []

/-- The severity clause, present iff a `--severity` argument was stored. -/
def sevClauseOf (v : Option String) : List String :=
  match v with
  | some s => [" severity>=" ++ s]
  | none => []

/-- The serviceable clause: `yes`/`no` contribute one boolean-equality clause,
`all` (= 0, also the unset default) contributes none. -/
def servClauseOf (sv : ℕ) : List String :=
  if sv = SL_QUERY_NO then [" serviceable=0"]
  else if sv = SL_QUERY_YES then [" serviceable=1"]
  else []

/-- The ordered clause list of a synthesized filter: type clause, then
severity clause, then serviceable clause.  No other selector (in particular,
not the repair-action tri-state) ever contributes a clause. -/
def clauses (L : Lib) (st : FilterIn) : List String :=
  typeClauseOf L st.typeTmp ++ sevClauseOf st.tSev ++ servClauseOf st.servicable

/-- Join a clause list with exactly one `" and "` between consecutive clauses
and no connector before the first. -/
def joinAnd : List String → String
  | [] => ""
  | [c] => c
  | c :: c2 :: rest => c ++ " and " ++ joinAnd (c2 :: rest)

/-- Prefix every clause but the first with the `" and "` connector. -/
def withConnectors : List String → List String
  | [] => []
  | c :: rest => c :: rest.map (fun s => " and " ++ s)

theorem strConcat_withConnectors (l : List String) :
    strConcat (withConnectors l) = joinAnd l := by
  induction l with
  | nil => rfl
  | cons c rest ih =>
    cases rest with
    | nil => simp [withConnectors, strConcat, joinAnd]
    | cons c2 r2 =>
      simp only [withConnectors, List.map_cons, strConcat, joinAnd] at ih ⊢
      rw [← ih]
      simp [String.append_assoc]

theorem appendTexts_snd (L : Lib) (st : FilterIn) :
    (appendTexts L st).map Prod.snd = withConnectors (clauses L st) := by
  obtain ⟨t, v, sv⟩ := st
  cases t <;> cases v <;>
    simp only [appendTexts, clauses, typeClauseOf, sevClauseOf, servClauseOf,
      SL_QUERY_NO, SL_QUERY_YES] <;>
    split_ifs <;>
    simp_all [withConnectors, String.append_assoc, String.empty_append] <;>
    rw [show (" and  severity>=" : String) = " and " ++ " severity>=" from rfl,
      String.append_assoc]

/-! ## Byte accounting for the `type_match` buffer (lines 179-180, 380-383, 405-423)

The buffer is `char type_match[1024]`, with `next` starting at offset 0 and
`end = next + sizeof(type_match) - 1`, i.e. offset 1023.  Each `snprintf`
call receives `end - next` (a `ptrdiff_t`, converted to `size_t`, i.e.
reduced modulo `2 ^ 64`) as its size and the code then advances `next` by the
return value of `snprintf`, which is the length the full output WOULD have
had, not the number of bytes actually written.  The library call
`v29_types_to_v1_match(next, bitmap)` receives no size at all and is assumed
to return a pointer just past the text it wrote. -/

/-- The number of bytes a call `snprintf(buf + pos, size, ...)` writes into
memory (including the terminating NUL) when its formatted output has length
`len` and `size` is the `size_t` conversion of `1023 - pos`.  With `size = 0`
nothing is written; otherwise at most `size - 1` characters plus a NUL. -/
def snpWritten (pos : ℤ) (len : ℕ) : ℕ :=
  let size : ℕ := ((1023 - pos) % (2 : ℤ) ^ 64).toNat
  if size = 0 then 0 else min len (size - 1) + 1

/-- A single `snprintf` append at offset `pos` stays inside the 1024-byte
buffer. -/
def snpSafeB (pos : ℤ) (len : ℕ) : Bool :=
  decide (0 ≤ pos ∧ pos + (snpWritten pos len : ℤ) ≤ 1024)

/-- Run the append sequence, checking that every `snprintf` call writes only
inside the buffer.  `next` advances by the full formatted length after each
call, exactly as `next += snprintf(...)` does. -/
def snpAllSafe : ℤ → List (Bool × String) → Bool
  | _, [] => true
  | pos, (isSnp, s) :: rest =>
    (!isSnp || snpSafeB pos s.length) && snpAllSafe (pos + s.length) rest

/-! ## The `servicelog_notify` command line (getopt loop, lines 211-343)

One constructor per `getopt_long` case arm.  The string payloads are the
`optarg` values.  `help` is `-h`/`--help` (exit 0) and `unknown` is the `'?'`
arm (exit 1). -/

inductive NFlag where
  | add
  | remove
  | list
  | query
  | id (s : String)
  | typ (s : String)
  | cmd (s : String)
  | mtch (s : String)
  | method (s : String)
  | sev (s : String)
  | rep (s : String)
  | serv (s : String)
  | help
  | unknown
deriving Repr, DecidableEq

/-- Action codes of `servicelog_notify.c`: `ACTION_TOOMANY = -1`,
`ACTION_UNSPECIFIED = 0`, `ACTION_ADD = 1`, `ACTION_LIST = 2`,
`ACTION_REMOVE = 3`, `ACTION_QUERY = 4`. -/
def actUpd (a : ℤ) (new : ℤ) : ℤ :=
  if a = 0 then new else -1

/-- The `valid_yna_arg` of `servicelog_notify.c` (lines 108-123): `strncmp`
prefix tests for `yes`/`no`/`all`, returning the `SL_QUERY_*` value, `-1`
otherwise. -/
def valid_yna_arg (optarg : String) : ℤ :=
  if strPfx "yes" optarg then (SL_QUERY_YES : ℕ)
  else if strPfx "no" optarg then (SL_QUERY_NO : ℕ)
  else if strPfx "all" optarg then (SL_QUERY_ALL : ℕ)
  else -1

/-- Method constants from the library header; only their distinctness from
`-1` matters here (no claim concerns the method value). -/
def valid_method_arg (arg : String) : ℤ :=
  if strPfx "num_stdin" arg then 1
  else if strPfx "num_arg" arg then 2
  else if strPfx "text_stdin" arg then 3
  else if strPfx "pairs_stdin" arg then 4
  else -1

/-- Decimal value of a digit list. -/
def decVal (cs : List Char) : ℕ :=
  cs.foldl (fun a c => a * 10 + (c.toNat - 48)) 0

/-- The `--id` argument check at lines 245-251: `strtoul(optarg, &next, 10)`
followed by `optarg[0] != '\0'`, `*next == '\0'` and `(long)id > 0`.  We model
the accepted arguments as nonempty all-digit strings (leading whitespace and
an explicit sign, which `strtoul` would also skip, are not modelled) whose
value is positive and below `2 ^ 63` (a larger value makes `(long)id`
non-positive; `strtoul` clamps overflow to `ULONG_MAX`). -/
def idArgOk (s : String) : Bool :=
  s.data ≠ [] && s.data.all (·.isDigit) &&
    (let v := min (decVal s.data) (2 ^ 64 - 1)
     decide (0 < v ∧ v < 2 ^ 63))

/-- Parser state of `servicelog_notify.c`'s `main`, with the source's local
variable names (`match` is a Lean keyword, so that field is `mtch`;
`notify_flag` is `notifyFlag`). -/
structure PState where
  action : ℤ := 0
  flagId : Bool := false
  typeTmp : Option String := none
  tSev : Option String := none
  servicable : ℕ := 0
  mtch : Option String := none
  command : Option String := none
  method : ℤ := 0
  notifyFlag : ℕ := 0
  addFlags : ℕ := 0
deriving Repr, DecidableEq

/-- One iteration of the `getopt_long` switch (lines 219-342).  `Except.error c`
models `exit(c)` inside the loop.  The `stat`-based existence/executability
check of the `--command` argument touches the filesystem (external to the
program logic) and is modelled as passing. -/
def stepFlag (st : PState) : NFlag → Except ℤ PState
  | .add => .ok { st with action := actUpd st.action 1 }
  | .remove => .ok { st with action := actUpd st.action 3 }
  | .list => .ok { st with action := actUpd st.action 2 }
  | .query => .ok { st with action := actUpd st.action 4 }
  | .id s => if idArgOk s then .ok { st with flagId := true } else .error 1
  | .typ s => .ok { st with typeTmp := some s, addFlags := st.addFlags + 1 }
  | .cmd s => .ok { st with command := some s }
  | .mtch s => .ok { st with mtch := some s, addFlags := st.addFlags + 1 }
  | .method s =>
    let m := valid_method_arg s
    if m = -1 then .error 1
    else .ok { st with method := m, addFlags := st.addFlags + 1 }
  | .sev s => .ok { st with tSev := some s, addFlags := st.addFlags + 1 }
  | .rep s =>
    let t := valid_yna_arg s
    if t = (SL_QUERY_YES : ℕ) then
      .ok { st with notifyFlag := TYPE_REPAIRS, addFlags := st.addFlags + 1 }
    else if t = (SL_QUERY_NO : ℕ) then
      .ok { st with notifyFlag := TYPE_EVENTS, addFlags := st.addFlags + 1 }
    else if t = (SL_QUERY_ALL : ℕ) then
      .ok { st with notifyFlag := TYPE_EVENTS ||| TYPE_REPAIRS,
                    addFlags := st.addFlags + 1 }
    else .error 1
  | .serv s =>
    let t := valid_yna_arg s
    if t < 0 then .error 1
    else
      let st := { st with servicable := t.toNat, addFlags := st.addFlags + 1 }
      if t < 2 then .ok { st with notifyFlag := st.notifyFlag ||| TYPE_EVENTS }
      else .ok st
  | .help => .error 0
  | .unknown => .error 1

/-- Run the whole `getopt_long` loop over the command line. -/
def parseFlags : PState → List NFlag → Except ℤ PState
  | st, [] => .ok st
  | st, f :: rest =>
    match stepFlag st f with
    | .ok st' => parseFlags st' rest
    | .error c => .error c

/-- The `EVENT`/`REPAIR` `strstr` probes of the post-loop `--type` handling
(lines 365-370). -/
def typeNfBits (t : Option String) : ℕ :=
  match t with
  | some s =>
    (if hasSub "EVENT" s then TYPE_EVENTS else 0) |||
    (if hasSub "REPAIR" s then TYPE_REPAIRS else 0)
  | none => 0

/-- The filter-relevant projection of the parser state. -/
def filterInOf (st : PState) : FilterIn :=
  { typeTmp := st.typeTmp, tSev := st.tSev, servicable := st.servicable }

/-- Notification type of a registration: `SL_NOTIFY_EVENTS` or
`SL_NOTIFY_REPAIRS` in `notify->notify`. -/
inductive NType where
  | events
  | repairs
deriving Repr, DecidableEq

/-- One `sl_notify` registration as filled in by the `--add` path
(`notify->notify`, `notify->match`, `notify->command`, `notify->method`). -/
structure Rego where
  ntype : NType
  mtch : String
  command : String
  method : ℤ
deriving Repr, DecidableEq

/-- Observable outcome of a `servicelog_notify` invocation.  Database
interactions themselves are external; for the `--add` action the outcome
records the registrations handed to `servicelog_notify_log`, in order. -/
inductive NOutcome where
  | exit (code : ℤ)
  | addRegs (regs : List Rego)
  | listQueryAction
  | removeAction
deriving Repr, DecidableEq

/-- The registrations inserted by the `--add` path (lines 454-529): an
event registration if `TYPE_EVENTS` is set in `notify_flag` (after the
default at line 435), then a repair registration if `TYPE_REPAIRS` is set.
The event registration's match string is the `--match` argument if one was
given, else the synthesized `type_match`; the repair registration's is the
`--match` argument if one was given, else the empty string. -/
def regsOf (L : Lib) (st : PState) (c : String) : List Rego :=
  let nf := st.notifyFlag ||| typeNfBits st.typeTmp
  let nf := if nf = 0 then TYPE_EVENTS else nf
  (if nf &&& TYPE_EVENTS ≠ 0 then
    [{ ntype := .events, mtch := st.mtch.getD (typeMatch L (filterInOf st)),
       command := c, method := st.method }]
  else []) ++
  (if nf &&& TYPE_REPAIRS ≠ 0 then
    [{ ntype := .repairs, mtch := st.mtch.getD "",
       command := c, method := st.method }]
  else [])

/-- The post-parse control flow of `servicelog_notify.c`'s `main`
(lines 345-654), with `servicelog_open` (external) assumed to succeed.
An empty command line prints usage and exits 0 (line 204). -/
def notifyMain (L : Lib) (flags : List NFlag) : NOutcome :=
  if flags = [] then .exit 0
  else
    match parseFlags {} flags with
    | .error c => .exit c
    | .ok st =>
      if st.action = 0 then .exit 1
      else if st.action = -1 then .exit 1
      else if st.action = 4 ∧ st.command = none ∧ st.flagId = false then .exit 1
      else if st.action = 1 then
        if st.flagId then .exit 1
        else
          match st.command with
          | none => .exit 1
          | some c => .addRegs (regsOf L st c)
      else if st.action = 2 ∨ st.action = 4 then
        if (st.command.isSome ∧ st.flagId) ∨ st.addFlags ≠ 0 then .exit 1
        else .listQueryAction
      else if st.action = 3 then
        if st.command = none ∧ st.flagId = false then .exit 1
        else .removeAction
      else .exit 1

/-! ## `v29_servicelog.c`: the v0.2.9 query tool -/

/-- C `isspace` for the default locale. -/
def isCSpace (c : Char) : Bool :=
  c = ' ' || c = '\t' || c = '\n' || c = Char.ofNat 11 || c = Char.ofNat 12 || c = '\r'

/-- C `atoi`: skip whitespace, optional sign, maximal digit run (overflow of
the C `int` is undefined behaviour and is not modelled; every use in this
repository feeds small values). -/
def atoi (s : String) : ℤ :=
  let cs := s.data.dropWhile isCSpace
  match cs with
  | '-' :: t => -(decVal (t.takeWhile (·.isDigit)) : ℤ)
  | '+' :: t => (decVal (t.takeWhile (·.isDigit)) : ℤ)
  | _ => (decVal (cs.takeWhile (·.isDigit)) : ℤ)

/-- The `valid_arg` of `v29_servicelog.c` (lines 85-95): an integer argument is
valid iff `0 < type` and `type < max` (the severity check passes `max = 8`). -/
def valid_arg (type mx : ℤ) : Bool :=
  decide (0 < type ∧ type < mx)

/-- The `valid_yna_arg` of `v29_servicelog.c` (lines 104-120).  Its doc comment
says it returns `-1` for an invalid argument, but the code falls through to
`return 0` after printing the error message — `0` is also `SL_QUERY_ALL`. -/
def v29_valid_yna_arg (optarg : String) : ℤ :=
  if strPfx "yes" optarg then (SL_QUERY_YES : ℕ)
  else if strPfx "no" optarg then (SL_QUERY_NO : ℕ)
  else if strPfx "all" optarg then (SL_QUERY_ALL : ℕ)
  else 0

/-- Event-type enumerators of the v0.2.9 library header, used only as opaque
tags pushed into the `types` array by `add_type`. -/
def V29_SL_TYPE_APP : ℕ := 1

def V29_SL_TYPE_OS : ℕ := 2

def V29_SL_TYPE_PPC64_RTAS : ℕ := 3

def V29_SL_TYPE_PPC64_ENCL : ℕ := 4

/-- The `add_type` helper (lines 122-139): recognized type tokens (by
`strncmp` prefix) are appended to the `types` accumulator, `all` resets it
(`type_indx = 0`), anything else is a failure (`main` then calls `exit(-1)`,
which the OS reports as status 255). -/
def add_type (types : List ℕ) (type : String) : Option (List ℕ) :=
  if strPfx "app" type then some (types ++ [V29_SL_TYPE_APP])
  else if strPfx "os" type then some (types ++ [V29_SL_TYPE_OS])
  else if strPfx "ppc64_rtas" type then some (types ++ [V29_SL_TYPE_PPC64_RTAS])
  else if strPfx "ppc64_encl" type then some (types ++ [V29_SL_TYPE_PPC64_ENCL])
  else if strPfx "all" type then some []
  else none

/-- Command line of `v29_servicelog` (getopt loop, lines 182-262), one
constructor per case arm that matters to control flow. -/
inductive V29Flag where
  | vid (s : String)
  | vtyp (s : String)
  | vstart (s : String)
  | vend (s : String)
  | vserv (s : String)
  | vrep (s : String)
  | vrepd (s : String)
  | vsev (s : String)
  | vloc (s : String)
  | vverbose
deriving Repr, DecidableEq

/-- Parser state of `v29_servicelog`'s `main`, holding the `sl_query` fields
it fills in.  The `struct sl_query` is `memset` to zero, so every `is_*`
tri-state starts as `SL_QUERY_ALL = 0`. -/
structure V29State where
  id : ℕ := 0
  otherFlag : ℕ := 0
  types : List ℕ := []
  startTime : ℤ := 0
  endTime : ℤ := 0
  isServiceable : ℤ := 0
  isRepairAction : ℤ := 0
  isRepaired : ℤ := 0
  severity : ℤ := 0
  location : Option String := none
  verbose : ℕ := 0
deriving Repr, DecidableEq

/-- One iteration of `v29_servicelog`'s getopt switch (lines 190-261).
`Except.error c` models `exit` with status `c`; `exit(-1)` is status 255.
Note the `rc == -1` tests after `valid_yna_arg` (lines 212, 220, 228): they
are the intended invalid-argument rejection, but `v29_valid_yna_arg` can
never return `-1`. -/
def v29step (st : V29State) : V29Flag → Except ℤ V29State
  | .vid s => .ok { st with id := ((atoi s) % (2 : ℤ) ^ 32).toNat }
  | .vtyp s =>
    match add_type st.types s with
    | none => .error 255
    | some ts => .ok { st with types := ts, otherFlag := st.otherFlag + 1 }
  | .vstart s => .ok { st with startTime := atoi s, otherFlag := st.otherFlag + 1 }
  | .vend s => .ok { st with endTime := atoi s, otherFlag := st.otherFlag + 1 }
  | .vserv s =>
    let rc := v29_valid_yna_arg s
    if rc = -1 then .error 255
    else .ok { st with isServiceable := rc, otherFlag := st.otherFlag + 1 }
  | .vrep s =>
    let rc := v29_valid_yna_arg s
    if rc = -1 then .error 255
    else .ok { st with isRepairAction := rc, otherFlag := st.otherFlag + 1 }
  | .vrepd s =>
    let rc := v29_valid_yna_arg s
    if rc = -1 then .error 255
    else .ok { st with isRepaired := rc, otherFlag := st.otherFlag + 1 }
  | .vsev s =>
    if valid_arg (atoi s) 8 = false then .error 255
    else .ok { st with severity := atoi s, otherFlag := st.otherFlag + 1 }
  | .vloc s => .ok { st with location := some s }
  | .vverbose => .ok { st with verbose := st.verbose + 1 }

/-- Run the v29 getopt loop. -/
def v29parse : V29State → List V29Flag → Except ℤ V29State
  | st, [] => .ok st
  | st, f :: rest =>
    match v29step st f with
    | .ok st' => v29parse st' rest
    | .error c => .error c

/-- Observable outcome of a `v29_servicelog` invocation: an exit before any
database access, a by-id `servicelog_get_event`, or a `servicelog_query` with
the accumulated `sl_query` structure (the two latter require the database to
have been opened). -/
inductive V29Out where
  | vexit (code : ℤ)
  | getEvent (id : ℕ)
  | queryDB (q : V29State)
deriving Repr, DecidableEq

/-- The `main` of `v29_servicelog.c` after the platform check: parse loop,
the two mutual-exclusion checks (lines 265-277, both `exit(-1)` = status
255), then `servicelog_open` (assumed to succeed) followed by either the
by-id fetch or the query (lines 285-318). -/
def v29main (flags : List V29Flag) : V29Out :=
  if flags = [] then .vexit 0
  else
    match v29parse {} flags with
    | .error c => .vexit c
    | .ok st =>
      if st.id ≠ 0 ∧ st.otherFlag ≠ 0 then .vexit 255
      else if st.id = 0 ∧ st.otherFlag = 0 then .vexit 255
      else if st.id ≠ 0 then .getEvent st.id
      else .queryDB st

/-! ## `servicelog_switch.c`: the legacy/modern dispatcher -/

/-- One constructor per getopt case of the dispatcher (lines 184-212); the
option arguments are never inspected, so they are not carried.  `swUnknown`
is the `'?'` arm. -/
inductive SwFlag where
  | swD
  | swQ
  | swE
  | swLowE
  | swI
  | swR
  | swLowR
  | swS
  | swLowS
  | swT
  | swV
  | swLowV
  | swH
  | swUnknown
deriving Repr, DecidableEq

/-- Legacy (v0.2.9) flags: `-E -e -i -R -r -S -s -t`. -/
def isLegacy : SwFlag → Bool
  | .swE | .swLowE | .swI | .swR | .swLowR | .swS | .swLowS | .swT => true
  | _ => false

/-- Modern (v1) flags: `-d -q`. -/
def isModern : SwFlag → Bool
  | .swD | .swQ => true
  | _ => false

/-- Observable outcome of the dispatcher: an exit, or an `execv` of one of
the two sibling binaries with the original argument vector (only `argv[0]`
replaced by the sibling's path). -/
inductive SwOutcome where
  | exitCode (n : ℤ)
  | execV29
  | execV1
deriving Repr, DecidableEq

/-- The dispatcher's getopt loop (lines 177-213): each flag bumps the
`v1_opts` or `v29_opts` counter; `-V` prints the version and exits 0; `-h`
and an unknown flag print the usage text and exit 0; `-v` is ignored.
`Except.error c` models an `exit(c)` inside the loop. -/
def swCount : ℕ × ℕ → List SwFlag → Except ℤ (ℕ × ℕ)
  | c, [] => .ok c
  | (v1Opts, v29Opts), f :: rest =>
    match f with
    | .swD | .swQ => swCount (v1Opts + 1, v29Opts) rest
    | .swE | .swLowE | .swI | .swR | .swLowR | .swS | .swLowS | .swT =>
      swCount (v1Opts, v29Opts + 1) rest
    | .swV => .error 0
    | .swLowV => swCount (v1Opts, v29Opts) rest
    | .swH | .swUnknown => .error 0

/-- A full dispatcher invocation: the loop, then the decision at lines
214-226 — mixing exits 1, otherwise `exec` of the v0.2.9 sibling iff at
least one legacy flag was counted, else the v1 sibling. -/
def dispatcher (flags : List SwFlag) : SwOutcome :=
  match swCount (0, 0) flags with
  | .error c => .exitCode c
  | .ok (v1Opts, v29Opts) =>
    if v1Opts ≠ 0 ∧ v29Opts ≠ 0 then .exitCode 1
    else if v29Opts ≠ 0 then .execV29
    else .execV1

/-! ## `log_repair_action.c`: the `--date` shell-out (lines 190-307) -/

/-- Value of a hexadecimal digit, if `c` is one. -/
def hexVal (c : Char) : Option ℕ :=
  if c.isDigit then some (c.toNat - 48)
  else if 'a' ≤ c ∧ c ≤ 'f' then some (c.toNat - 87)
  else if 'A' ≤ c ∧ c ≤ 'F' then some (c.toNat - 55)
  else none

/-- Digit value in the given base (2 ≤ base ≤ 16 is all we need). -/
def digVal (base : ℕ) (c : Char) : Option ℕ :=
  match hexVal c with
  | some d => if d < base then some d else none
  | none => none

/-- Accumulate a maximal run of digits in the given base. -/
def valRun (base : ℕ) : ℕ → List Char → ℕ
  | acc, [] => acc
  | acc, c :: t =>
    match digVal base c with
    | some d => valRun base (acc * base + d) t
    | none => acc

/-- C `strtol(s, NULL, 0)`: optional whitespace and sign, base detection from
a `0x`/`0` prefix, maximal digit run (0 if there is none), clamped to the
`long` range as `strtol` does on overflow. -/
def strtol (s : String) : ℤ :=
  let cs := s.data.dropWhile isCSpace
  let (neg, cs1) :=
    match cs with
    | '-' :: t => (true, t)
    | '+' :: t => (false, t)
    | _ => (false, cs)
  let (base, cs2) :=
    match cs1 with
    | '0' :: x :: t =>
      if (x = 'x' ∨ x = 'X') ∧ (digVal 16 (t.headD ' ')).isSome then (16, t)
      else (8, '0' :: x :: t)
    | _ => (10, cs1)
  let v : ℤ := (valRun base 0 cs2 : ℕ)
  let v := if neg then -v else v
  if v > 2 ^ 63 - 1 then 2 ^ 63 - 1
  else if v < -(2 ^ 63) then -(2 ^ 63)
  else v

/-- The parent's handling of the piped `/bin/date +%s --date <arg>` output
(lines 262-301).  `none` models a failed `read` (`rc == -1`); `some buf`
models a successful read of the NUL-terminated output.  An empty output
(`strlen(buf) == 0`) or an output whose `strtol` value is zero sets
`rc = -1`, and `main` then calls `exit(1)`; otherwise `epoch` is the
`strtol` value. -/
def parentDate (readRes : Option String) : Except ℤ ℤ :=
  match readRes with
  | none => .error 1
  | some buf =>
    if buf.length = 0 then .error 1
    else if strtol buf = 0 then .error 1
    else .ok (strtol buf)

/-- The value assigned to `ra->time_repair` (line 307) as a function of the
`--date` option: without `--date`, the current time (line 304); with
`--date`, the result of the pipe protocol above, where `Except.error 1`
means the process exits with status 1 before any confirmation prompt or
database access. -/
def repairTime (date : Option String) (readRes : Option String) (now : ℤ) :
    Except ℤ ℤ :=
  match date with
  | none => .ok now
  | some _ => parentDate readRes

/-! ## `v29_servicelog_manage.c`: the `--clean` scan (lines 405-430) -/

/-- An `sl_event` as tested by the clean loop: the `serviceable` and `closed`
ints and the `time_logged` timestamp. -/
structure SlEvent where
  serviceable : ℤ
  closed : ℤ
  timeLogged : ℤ
deriving Repr, DecidableEq

/-- `SECONDS_IN_YEAR = 365 * 24 * 60 * 60`. -/
def SECONDS_IN_YEAR : ℤ := 31536000

/-- Reason an event is deleted by `--clean`, in the order of the
`if`/`else if` chain at lines 416-428: repaired (closed) serviceable event;
non-serviceable event older than `age` days (`span = age * SECONDS_IN_DAY`);
anything else logged more than one year ago.  `none` means the event is
retained. -/
inductive CleanReason where
  | repairedServiceable
  | oldInfo
  | oldOther
deriving Repr, DecidableEq

/-- The guard chain applied to one event (C ints are truthy iff nonzero). -/
def cleanReason (now span : ℤ) (e : SlEvent) : Option CleanReason :=
  if e.serviceable ≠ 0 ∧ e.closed ≠ 0 then some .repairedServiceable
  else if e.serviceable = 0 ∧ e.timeLogged + span < now then some .oldInfo
  else if e.timeLogged + SECONDS_IN_YEAR < now then some .oldOther
  else none

/-- The clean loop over the queried events: returns the three counters
`num_repaired`, `num_info`, `num` and the list of retained (not deleted)
events, in order. -/
def cleanScan (now span : ℤ) : List SlEvent → (ℕ × ℕ × ℕ) × List SlEvent
  | [] => ((0, 0, 0), [])
  | e :: rest =>
    let ((nRepaired, nInfo, nOther), kept) := cleanScan now span rest
    match cleanReason now span e with
    | some .repairedServiceable => ((nRepaired + 1, nInfo, nOther), kept)
    | some .oldInfo => ((nRepaired, nInfo + 1, nOther), kept)
    | some .oldOther => ((nRepaired, nInfo, nOther + 1), kept)
    | none => ((nRepaired, nInfo, nOther), e :: kept)

/-! ## Claim C2: clause order and connectors of the synthesized filter -/

/-- C2: for every combination of legacy selectors, the synthesized filter is
the type-derived clause (if any), then the severity clause (if any), then the
serviceable clause (if any), joined with exactly one `" and "` connector
between consecutive clauses and no connector before the first.  The
repair-action tri-state never contributes a clause (`clauses` has no
repair-state component), so the "repair-state clause (if any)" part of the
claim holds vacuously. -/
theorem claim_C2_clause_order (L : Lib) (st : FilterIn) :
    typeMatch L st = joinAnd (clauses L st) := by
  rw [typeMatch, appendTexts_snd, strConcat_withConnectors]

/-! ## Claim C10: the `--clean` scan partitions the event set -/

theorem cleanScan_eq (now span : ℤ) (events : List SlEvent) :
    cleanScan now span events =
      (((events.filter fun e => decide (cleanReason now span e = some .repairedServiceable)).length,
        (events.filter fun e => decide (cleanReason now span e = some .oldInfo)).length,
        (events.filter fun e => decide (cleanReason now span e = some .oldOther)).length),
       events.filter fun e => decide (cleanReason now span e = none)) := by
  induction events with
  | nil => rfl
  | cons e rest ih =>
    simp only [cleanScan, ih]
    rcases hcr : cleanReason now span e with _ | r
    · simp [List.filter, hcr]
    · cases r <;> simp [List.filter, hcr]

theorem cleanReason_count (now span : ℤ) (events : List SlEvent) :
    (events.filter fun e => decide (cleanReason now span e = some .repairedServiceable)).length +
      (events.filter fun e => decide (cleanReason now span e = some .oldInfo)).length +
      (events.filter fun e => decide (cleanReason now span e = some .oldOther)).length +
      (events.filter fun e => decide (cleanReason now span e = none)).length =
      events.length := by
  induction events with
  | nil => rfl
  | cons e rest ih =>
    rcases hcr : cleanReason now span e with _ | r
    · simp [List.filter, hcr]; omega
    · cases r <;> simp [List.filter, hcr] <;> omega

theorem cleanReason_guards (now span : ℤ) (e : SlEvent) :
    (cleanReason now span e = some .repairedServiceable ↔
      e.serviceable ≠ 0 ∧ e.closed ≠ 0) ∧
    (cleanReason now span e = some .oldInfo ↔
      ¬(e.serviceable ≠ 0 ∧ e.closed ≠ 0) ∧
        (e.serviceable = 0 ∧ e.timeLogged + span < now)) ∧
    (cleanReason now span e = some .oldOther ↔
      ¬(e.serviceable ≠ 0 ∧ e.closed ≠ 0) ∧
        ¬(e.serviceable = 0 ∧ e.timeLogged + span < now) ∧
        e.timeLogged + SECONDS_IN_YEAR < now) ∧
    (cleanReason now span e = none ↔
      ¬(e.serviceable ≠ 0 ∧ e.closed ≠ 0) ∧
        ¬(e.serviceable = 0 ∧ e.timeLogged + span < now) ∧
        ¬(e.timeLogged + SECONDS_IN_YEAR < now)) := by
  unfold cleanReason
  split_ifs with h1 h2 h3 <;> simp_all

/-- C10: every event examined by `--clean` is deleted for at most one reason,
the reason being the first of three mutually exclusive guarded conditions
(serviceable-and-closed; else non-serviceable and older than `age` days; else
older than one year), the three per-category counters together with the
retained events partition the queried event set, and an event matching none
of the three conditions is retained (never deleted). -/
theorem claim_C10_clean_partition (now span : ℤ) (events : List SlEvent) :
    (cleanScan now span events =
      (((events.filter fun e => decide (cleanReason now span e = some .repairedServiceable)).length,
        (events.filter fun e => decide (cleanReason now span e = some .oldInfo)).length,
        (events.filter fun e => decide (cleanReason now span e = some .oldOther)).length),
       events.filter fun e => decide (cleanReason now span e = none))) ∧
    ((events.filter fun e => decide (cleanReason now span e = some .repairedServiceable)).length +
      (events.filter fun e => decide (cleanReason now span e = some .oldInfo)).length +
      (events.filter fun e => decide (cleanReason now span e = some .oldOther)).length +
      (events.filter fun e => decide (cleanReason now span e = none)).length =
      events.length) ∧
    (∀ e : SlEvent,
      (cleanReason now span e = some .repairedServiceable ↔
        e.serviceable ≠ 0 ∧ e.closed ≠ 0) ∧
      (cleanReason now span e = some .oldInfo ↔
        ¬(e.serviceable ≠ 0 ∧ e.closed ≠ 0) ∧
          (e.serviceable = 0 ∧ e.timeLogged + span < now)) ∧
      (cleanReason now span e = some .oldOther ↔
        ¬(e.serviceable ≠ 0 ∧ e.closed ≠ 0) ∧
          ¬(e.serviceable = 0 ∧ e.timeLogged + span < now) ∧
          e.timeLogged + SECONDS_IN_YEAR < now) ∧
      (cleanReason now span e = none ↔
        ¬(e.serviceable ≠ 0 ∧ e.closed ≠ 0) ∧
          ¬(e.serviceable = 0 ∧ e.timeLogged + span < now) ∧
          ¬(e.timeLogged + SECONDS_IN_YEAR < now))) :=
  ⟨cleanScan_eq now span events, cleanReason_count now span events,
    fun e => cleanReason_guards now span e⟩

/-! ## Claim C8: a failed `--date` parse exits 1, never falling back to now -/

/-- C8: for every `--date` invocation, if the shelled-out `/bin/date` produces
an empty output or an output whose `strtol` value is zero (or the pipe read
fails), the parent exits with code 1; and whenever a `--date` invocation does
produce a repair time, that time is the `strtol` value of the pipe output —
never the current time `now`. -/
theorem claim_C8_date_failure_exits (d : String) (readRes : Option String)
    (now : ℤ) :
    ((readRes = none ∨ readRes = some "" ∨ ∃ b, readRes = some b ∧ strtol b = 0) →
      repairTime (some d) readRes now = .error 1) ∧
    (∀ t, repairTime (some d) readRes now = .ok t →
      ∃ b, readRes = some b ∧ t = strtol b ∧ strtol b ≠ 0) := by
  constructor
  · rintro (rfl | rfl | ⟨b, rfl, hb⟩)
    · rfl
    · simp [repairTime, parentDate]
    · simp [repairTime, parentDate, hb]
  · intro t ht
    cases readRes with
    | none => simp [repairTime, parentDate] at ht
    | some b =>
      refine ⟨b, rfl, ?_⟩
      simp only [repairTime, parentDate] at ht
      split_ifs at ht with h0 hz
      injection ht with h
      exact ⟨h.symm, hz⟩

theorem claim_C8_witness :
    repairTime (some "not-a-date") (some "") 0 = .error 1 :=
  (claim_C8_date_failure_exits "not-a-date" (some "") 0).1 (Or.inr (Or.inl rfl))

/-! ## Claim C6: the translator's appends and the 1024-byte buffer -/

/-- A trivial instantiation of the opaque library functions, used for
concrete evaluations in which the `--type` path is not exercised. -/
def L0 : Lib := { conv := id, tc := fun _ => "" }

/-- A 1200-character `--severity` argument. -/
def sevLong : String := String.mk (List.replicate 1200 'x')

/-- The parsed filter inputs of
`--add --command=<cmd> --severity=<sevLong> --serviceable=no`. -/
def c6Input : FilterIn :=
  { typeTmp := none, tSev := some sevLong, servicable := SL_QUERY_NO }

set_option maxRecDepth 100000 in
/-- C6 fails on the code: with a 1200-character severity argument followed by
`--serviceable=no`, the first `snprintf` truncates (safely) but `next` is
advanced by the full 1211-character formatted length, so the second
`snprintf` receives `end - next = -188` converted to `size_t` (about
`2 ^ 64`), and writes its 19-character clause plus NUL at offsets
1211..1230 — past the end of the 1024-byte `type_match` buffer. -/
theorem claim_C6_truncation_overflow :
    snpAllSafe 0 (appendTexts L0 c6Input) = false := by decide

/-! ## Claim C3: invalid tri-state values in `v29_servicelog` -/

/-- C3 fails on the code: `v29_valid_yna_arg` can never return `-1` (it falls
through to `return 0` after printing its error message, contradicting its own
doc comment), so the `rc == -1` exit guards in `main` are dead for every
argument, and `v29_servicelog --serviceable=maybe` proceeds past the
flag-parsing boundary to `servicelog_open`/`servicelog_query` with the
invalid selector silently treated as `SL_QUERY_ALL = 0`. -/
theorem claim_C3_invalid_yna_reaches_db :
    (∀ s : String, (v29_valid_yna_arg s == -1) = false) ∧
    v29_valid_yna_arg "maybe" = (SL_QUERY_ALL : ℕ) ∧
    v29main [.vserv "maybe"] =
      .queryDB { otherFlag := 1, isServiceable := (SL_QUERY_ALL : ℕ) } := by
  refine ⟨fun s => ?_, rfl, rfl⟩
  unfold v29_valid_yna_arg
  split_ifs <;> decide

/-! ## Claim C7: the dispatcher's legacy/modern classification -/

/-- Flags that do not terminate the dispatcher's getopt loop themselves
(`-h`, `-V` and unknown flags print usage or version and exit 0). -/
def plainFlag : SwFlag → Bool
  | .swH | .swV | .swUnknown => false
  | _ => true

theorem swCount_plain (flags : List SwFlag) : ∀ v1 v29 : ℕ,
    flags.all plainFlag = true →
    swCount (v1, v29) flags =
      .ok (v1 + flags.countP isModern, v29 + flags.countP isLegacy) := by
  induction flags with
  | nil => intro v1 v29 _; simp [swCount]
  | cons f rest ih =>
    intro v1 v29 hp
    simp only [List.all_cons, Bool.and_eq_true] at hp
    have h2 := hp.2
    cases f
    case swD =>
      rw [show swCount (v1, v29) (.swD :: rest) = swCount (v1 + 1, v29) rest from rfl,
        ih _ _ h2]
      simp [List.countP_cons, isModern, isLegacy, Prod.ext_iff] <;> omega
    case swQ =>
      rw [show swCount (v1, v29) (.swQ :: rest) = swCount (v1 + 1, v29) rest from rfl,
        ih _ _ h2]
      simp [List.countP_cons, isModern, isLegacy, Prod.ext_iff] <;> omega
    case swE =>
      rw [show swCount (v1, v29) (.swE :: rest) = swCount (v1, v29 + 1) rest from rfl,
        ih _ _ h2]
      simp [List.countP_cons, isModern, isLegacy, Prod.ext_iff] <;> omega
    case swLowE =>
      rw [show swCount (v1, v29) (.swLowE :: rest) = swCount (v1, v29 + 1) rest from rfl,
        ih _ _ h2]
      simp [List.countP_cons, isModern, isLegacy, Prod.ext_iff] <;> omega
    case swI =>
      rw [show swCount (v1, v29) (.swI :: rest) = swCount (v1, v29 + 1) rest from rfl,
        ih _ _ h2]
      simp [List.countP_cons, isModern, isLegacy, Prod.ext_iff] <;> omega
    case swR =>
      rw [show swCount (v1, v29) (.swR :: rest) = swCount (v1, v29 + 1) rest from rfl,
        ih _ _ h2]
      simp [List.countP_cons, isModern, isLegacy, Prod.ext_iff] <;> omega
    case swLowR =>
      rw [show swCount (v1, v29) (.swLowR :: rest) = swCount (v1, v29 + 1) rest from rfl,
        ih _ _ h2]
      simp [List.countP_cons, isModern, isLegacy, Prod.ext_iff] <;> omega
    case swS =>
      rw [show swCount (v1, v29) (.swS :: rest) = swCount (v1, v29 + 1) rest from rfl,
        ih _ _ h2]
      simp [List.countP_cons, isModern, isLegacy, Prod.ext_iff] <;> omega
    case swLowS =>
      rw [show swCount (v1, v29) (.swLowS :: rest) = swCount (v1, v29 + 1) rest from rfl,
        ih _ _ h2]
      simp [List.countP_cons, isModern, isLegacy, Prod.ext_iff] <;> omega
    case swT =>
      rw [show swCount (v1, v29) (.swT :: rest) = swCount (v1, v29 + 1) rest from rfl,
        ih _ _ h2]
      simp [List.countP_cons, isModern, isLegacy, Prod.ext_iff] <;> omega
    case swLowV =>
      rw [show swCount (v1, v29) (.swLowV :: rest) = swCount (v1, v29) rest from rfl,
        ih _ _ h2]
      simp [List.countP_cons, isModern, isLegacy, Prod.ext_iff] <;> omega
    case swV => exact absurd hp.1 (by decide)
    case swH => exact absurd hp.1 (by decide)
    case swUnknown => exact absurd hp.1 (by decide)

/-- C7 fails on the code as stated (see `claim_C7_counterexample`): an
invocation containing `-h`, `-V` or an unknown flag exits 0 without exec-ing
either sibling.  Amended claim: for every invocation none of whose flags
is `-h`, `-V` or unknown, mixing at least one legacy flag
(`-i -t -s -e -E -S -R -r`) with at least one modern flag (`-q -d`) makes
the dispatcher exit 1 with a usage error instead of exec-ing; otherwise it
execs exactly one sibling binary — the v0.2.9 one iff at least one legacy
flag was seen — passing the original arguments. -/
theorem claim_C7_dispatch (flags : List SwFlag)
    (hp : flags.all plainFlag = true) :
    ((flags.any isLegacy = true ∧ flags.any isModern = true) →
      dispatcher flags = .exitCode 1) ∧
    (¬(flags.any isLegacy = true ∧ flags.any isModern = true) →
      dispatcher flags =
        (if flags.any isLegacy = true then .execV29 else .execV1)) := by
  have hc := swCount_plain flags 0 0 hp
  have keyL : (flags.countP isLegacy = 0) ↔ flags.any isLegacy = false := by
    rw [List.countP_eq_zero, List.any_eq_false]
  have keyM : (flags.countP isModern = 0) ↔ flags.any isModern = false := by
    rw [List.countP_eq_zero, List.any_eq_false]
  rw [dispatcher, hc]
  simp only [Nat.zero_add]
  constructor
  · rintro ⟨hl, hm⟩
    have h1 : flags.countP isModern ≠ 0 := fun h => by simp [keyM.mp h] at hm
    have h2 : flags.countP isLegacy ≠ 0 := fun h => by simp [keyL.mp h] at hl
    simp [h1, h2]
  · intro hmix
    by_cases hl : flags.any isLegacy = true
    · have hm : flags.any isModern = false := by
        cases hAM : flags.any isModern
        · rfl
        · exact absurd ⟨hl, hAM⟩ hmix
      have h1 : flags.countP isModern = 0 := keyM.mpr hm
      have h2 : flags.countP isLegacy ≠ 0 := fun h => by simp [keyL.mp h] at hl
      simp [h1, h2, hl]
    · have h2 : flags.countP isLegacy = 0 :=
        keyL.mpr (by
          cases h : flags.any isLegacy with
          | false => rfl
          | true => exact absurd h hl)
      simp [h2, hl]

/-- C7 as stated is false at the concrete invocation `servicelog -V`: it has
no legacy flag, so the claim requires an exec of the v1 sibling, but the
dispatcher prints the version and exits 0 without exec-ing anything. -/
theorem claim_C7_counterexample :
    dispatcher [SwFlag.swV] = .exitCode 0 ∧
    ([SwFlag.swV].any isLegacy) = false ∧
    ([SwFlag.swV].any isModern) = false ∧
    decide (dispatcher [SwFlag.swV] = SwOutcome.execV1) = false := by decide

theorem claim_C7_witness :
    dispatcher [SwFlag.swQ, SwFlag.swI] = SwOutcome.exitCode 1 :=
  (claim_C7_dispatch [SwFlag.swQ, SwFlag.swI] (by decide)).1 (by decide)

/-! ## Helper lemmas about the notify parse loop -/

theorem notifyMain_add (L : Lib) (flags : List NFlag) (st : PState)
    (regs : List Rego) (hp : parseFlags {} flags = .ok st)
    (hm : notifyMain L flags = .addRegs regs) :
    st.action = 1 ∧ st.flagId = false ∧
      ∃ c, st.command = some c ∧ regs = regsOf L st c := by
  unfold notifyMain at hm
  by_cases hfl : flags = []
  · subst hfl
    simp at hm
  · rw [if_neg hfl, hp] at hm
    simp only [] at hm
    split_ifs at hm with h0 h1 h2 h3 h4
    · rcases hc : st.command with _ | c
      · rw [hc] at hm
        simp at hm
      · rw [hc] at hm
        simp only [NOutcome.addRegs.injEq] at hm
        exact ⟨h3, by simpa using h4, c, rfl, hm.symm⟩

theorem stepFlag_nf (st : PState) (f : NFlag) (st' : PState)
    (hf : ∀ s, f ≠ NFlag.rep s) (h : stepFlag st f = .ok st') :
    st'.notifyFlag = st.notifyFlag ∨ st'.notifyFlag = st.notifyFlag ||| 1 := by
  cases f <;> simp only [stepFlag] at h <;>
    first
      | exact absurd rfl (hf _)
      | exact Except.noConfusion h
      | (injection h with h2; subst h2; simp [TYPE_EVENTS])
      | (split_ifs at h <;>
          first
            | exact Except.noConfusion h
            | (injection h with h2; subst h2; simp [TYPE_EVENTS]))

theorem lor_one_idem (a : ℕ) : (a ||| 1) ||| 1 = a ||| 1 := by
  rw [Nat.lor_assoc, show (1 ||| 1 : ℕ) = 1 from by decide]

theorem parse_norep (flags : List NFlag) (h : ∀ s, NFlag.rep s ∉ flags) :
    ∀ st st', parseFlags st flags = .ok st' →
      st'.notifyFlag = st.notifyFlag ∨ st'.notifyFlag = st.notifyFlag ||| 1 := by
  induction flags with
  | nil =>
    intro st st' hps
    simp only [parseFlags] at hps
    injection hps with h2
    subst h2
    simp
  | cons f rest ih =>
    intro st st' hps
    rcases hsf : stepFlag st f with c | st1
    · rw [parseFlags, hsf] at hps
      exact Except.noConfusion hps
    · rw [parseFlags, hsf] at hps
      have hf : ∀ s, f ≠ NFlag.rep s := by
        intro s he
        exact h s (he ▸ List.mem_cons_self f rest)
      have hrest : ∀ s, NFlag.rep s ∉ rest := by
        intro s hs
        exact h s (List.mem_cons_of_mem f hs)
      have h1 := stepFlag_nf st f st1 hf hsf
      have h2 := ih hrest st1 st' hps
      rcases h1 with e1 | e1 <;> rcases h2 with e2 | e2 <;>
        rw [e2, e1] <;> simp [lor_one_idem]

/-- The `notify_flag` variable only ever holds 0, 1, 2 or 3. -/
def nfSmall (n : ℕ) : Prop := n = 0 ∨ n = 1 ∨ n = 2 ∨ n = 3

theorem stepFlag_nfSmall (st : PState) (f : NFlag) (st' : PState)
    (h : stepFlag st f = .ok st') (hs : nfSmall st.notifyFlag) :
    nfSmall st'.notifyFlag := by
  cases f <;> simp only [stepFlag] at h <;>
    first
      | exact Except.noConfusion h
      | (injection h with h2; subst h2; first
          | exact hs
          | (simp [nfSmall, TYPE_EVENTS, TYPE_REPAIRS]; done)
          | (rcases hs with e | e | e | e <;>
              simp [nfSmall, TYPE_EVENTS, TYPE_REPAIRS, e]))
      | (split_ifs at h <;>
          first
            | exact Except.noConfusion h
            | (injection h with h2; subst h2; first
                | exact hs
                | (simp [nfSmall, TYPE_EVENTS, TYPE_REPAIRS]; done)
                | (rcases hs with e | e | e | e <;>
                    simp [nfSmall, TYPE_EVENTS, TYPE_REPAIRS, e])))

theorem parse_nfSmall (flags : List NFlag) :
    ∀ st st', parseFlags st flags = .ok st' → nfSmall st.notifyFlag →
      nfSmall st'.notifyFlag := by
  induction flags with
  | nil =>
    intro st st' hps hs
    simp only [parseFlags] at hps
    injection hps with h2
    subst h2
    exact hs
  | cons f rest ih =>
    intro st st' hps hs
    rcases hsf : stepFlag st f with c | st1
    · rw [parseFlags, hsf] at hps
      exact Except.noConfusion hps
    · rw [parseFlags, hsf] at hps
      exact ih st1 st' hps (stepFlag_nfSmall st f st1 hsf hs)

theorem parseFlags_append (l1 l2 : List NFlag) : ∀ st,
    parseFlags st (l1 ++ l2) =
      match parseFlags st l1 with
      | .ok st1 => parseFlags st1 l2
      | .error c => .error c := by
  induction l1 with
  | nil => intro st; rfl
  | cons f r ih =>
    intro st
    rcases hsf : stepFlag st f with c | st1
    · rw [List.cons_append, parseFlags, hsf, parseFlags, hsf]
    · rw [List.cons_append, parseFlags, hsf, parseFlags, hsf]
      exact ih st1

/-- The effect of a validated `--repair_action=all` on `notify_flag`:
`notify_flag = TYPE_EVENTS | TYPE_REPAIRS`. -/
theorem stepFlag_rep_all (st : PState) (s : String)
    (h : valid_yna_arg s = (SL_QUERY_ALL : ℕ)) :
    stepFlag st (.rep s) =
      .ok { st with notifyFlag := 3, addFlags := st.addFlags + 1 } := by
  simp only [stepFlag, h]
  norm_num [SL_QUERY_YES, SL_QUERY_NO, SL_QUERY_ALL, TYPE_EVENTS, TYPE_REPAIRS]
  decide

/-! ## Claim C1: an explicit `--match` fully overrides the synthesized filter -/

/-- C1: on every `--add` invocation, if a modern `--match` string was supplied
then every inserted registration stores exactly that string (the synthesized
legacy filter is discarded, never concatenated or merged); if none was
supplied, the event registration stores exactly the synthesized legacy
filter. -/
theorem claim_C1_match_overrides (L : Lib) (flags : List NFlag) (st : PState)
    (regs : List Rego) (hp : parseFlags {} flags = .ok st)
    (hm : notifyMain L flags = .addRegs regs) :
    (∀ m, st.mtch = some m → ∀ r ∈ regs, r.mtch = m) ∧
    (st.mtch = none →
      ∀ r ∈ regs, r.ntype = NType.events →
        r.mtch = typeMatch L (filterInOf st)) := by
  obtain ⟨ha, hfi, c, hc, hregs⟩ := notifyMain_add L flags st regs hp hm
  subst hregs
  constructor
  · intro m hmm r hr
    simp only [regsOf, List.mem_append] at hr
    rcases hr with hr | hr <;> split_ifs at hr <;>
      simp only [List.mem_singleton, List.not_mem_nil] at hr <;>
      first
        | exact hr.elim
        | (subst hr; simp [hmm])
  · intro h0 r hr hev
    simp only [regsOf, List.mem_append] at hr
    rcases hr with hr | hr <;> split_ifs at hr <;>
      simp only [List.mem_singleton, List.not_mem_nil] at hr <;>
      first
        | exact hr.elim
        | (subst hr; simp at hev; done)
        | (subst hr; simp [h0])

def c1Flags : List NFlag := [.add, .cmd "/usr/bin/true", .mtch "id>0", .sev "5"]

def c1St : PState :=
  { action := 1, command := some "/usr/bin/true", mtch := some "id>0",
    tSev := some "5", addFlags := 2 }

def c1Regs : List Rego :=
  [{ ntype := .events, mtch := "id>0", command := "/usr/bin/true", method := 0 }]

theorem claim_C1_witness :
    (⟨NType.events, "id>0", "/usr/bin/true", 0⟩ : Rego).mtch = "id>0" :=
  (claim_C1_match_overrides L0 c1Flags c1St c1Regs rfl rfl).1
    "id>0" rfl _ (List.mem_cons_self _ _)

/-! ## Claim C9: dual event/repair registrations -/

theorem typeNfBits_cases (t : Option String) :
    typeNfBits t = 0 ∨ typeNfBits t = 1 ∨ typeNfBits t = 2 ∨ typeNfBits t = 3 := by
  cases t with
  | none => left; rfl
  | some s =>
    simp only [typeNfBits, TYPE_EVENTS, TYPE_REPAIRS]
    split_ifs <;> decide

theorem regsOf_both (L : Lib) (st : PState) (c : String)
    (h : st.notifyFlag ||| typeNfBits st.typeTmp = 3) :
    (regsOf L st c).map Rego.ntype = [NType.events, NType.repairs] ∧
    (st.mtch = none → (regsOf L st c).getLast?.map Rego.mtch = some "") := by
  simp only [regsOf, h, TYPE_EVENTS, TYPE_REPAIRS,
    if_neg (show ¬(3 : ℕ) = 0 by decide)]
  rw [if_pos (show (3 : ℕ) &&& 1 ≠ 0 by decide),
    if_pos (show (3 : ℕ) &&& 2 ≠ 0 by decide)]
  refine ⟨rfl, ?_⟩
  intro h0
  simp [h0]

theorem regsOf_events_only (L : Lib) (st : PState) (c : String)
    (h : st.notifyFlag ||| typeNfBits st.typeTmp = 0 ∨
      st.notifyFlag ||| typeNfBits st.typeTmp = 1) :
    (regsOf L st c).map Rego.ntype = [NType.events] := by
  rcases h with h | h <;> simp only [regsOf, h, TYPE_EVENTS, TYPE_REPAIRS] <;> norm_num

/-- C9: on every `--add` invocation whose flags select both event and repair
notifications (an effective `--repair_action=all`, or a `--type` value
containing both `EVENT` and `REPAIR`), two registrations are inserted, first
one with `SL_NOTIFY_EVENTS` and then one with `SL_NOTIFY_REPAIRS`, and when
no modern `--match` string was given the repair registration's match string
is the empty string (the synthesized filter is attached only to the event
registration); when no `--type` and no `--repair_action` flag is given at
all, exactly one event registration is inserted. -/
theorem claim_C9_dual_registration (L : Lib) (flags : List NFlag) (st : PState)
    (regs : List Rego) (hp : parseFlags {} flags = .ok st)
    (hm : notifyMain L flags = .addRegs regs) :
    (((∃ l1 s l2, flags = l1 ++ NFlag.rep s :: l2 ∧
        valid_yna_arg s = (SL_QUERY_ALL : ℕ) ∧ ∀ s2, NFlag.rep s2 ∉ l2) ∨
      (∃ t, st.typeTmp = some t ∧ hasSub "EVENT" t = true ∧
        hasSub "REPAIR" t = true)) →
      regs.map Rego.ntype = [NType.events, NType.repairs] ∧
      (st.mtch = none → regs.getLast?.map Rego.mtch = some "")) ∧
    ((∀ s, NFlag.rep s ∉ flags) ∧ st.typeTmp = none →
      regs.map Rego.ntype = [NType.events]) := by
  obtain ⟨ha, hfi, c, hc, hregs⟩ := notifyMain_add L flags st regs hp hm
  subst hregs
  constructor
  · rintro (⟨l1, s, l2, hfe, hyna, hnorep⟩ | ⟨t, ht, hE, hR⟩)
    · subst hfe
      rw [parseFlags_append] at hp
      rcases h1 : parseFlags {} l1 with c1 | st1
      · rw [h1] at hp
        exact Except.noConfusion hp
      · rw [h1] at hp
        have hp1 : (match stepFlag st1 (.rep s) with
            | .ok st2 => parseFlags st2 l2
            | .error c => (.error c : Except ℤ PState)) = .ok st := hp
        rw [stepFlag_rep_all st1 s hyna] at hp1
        have h3 := parse_norep l2 hnorep _ st hp1
        have hnf : st.notifyFlag = 3 := by
          rcases h3 with e | e
          · exact e
          · rw [e]
            show (3 : ℕ) ||| 1 = 3
            decide
        rcases typeNfBits_cases st.typeTmp with e | e | e | e <;>
          exact regsOf_both L st c (by rw [hnf, e]; decide)
    · have htb3 : typeNfBits st.typeTmp = 3 := by
        rw [ht]
        simp only [typeNfBits, TYPE_EVENTS, TYPE_REPAIRS, hE, hR, if_pos]
        decide
      have hsmall := parse_nfSmall flags _ st hp (Or.inl rfl)
      rcases hsmall with e | e | e | e <;>
        exact regsOf_both L st c (by rw [e, htb3]; decide)
  · rintro ⟨hnorep, ht⟩
    have h3 := parse_norep flags hnorep _ st hp
    have htb0 : typeNfBits st.typeTmp = 0 := by rw [ht]; rfl
    refine regsOf_events_only L st c ?_
    rw [htb0]
    rcases h3 with e | e <;> rw [e] <;> simp

def c9Flags : List NFlag := [.add, .cmd "/usr/bin/true", .rep "all"]

def c9St : PState :=
  { action := 1, command := some "/usr/bin/true", notifyFlag := 3, addFlags := 1 }

def c9Regs : List Rego :=
  [⟨.events, "", "/usr/bin/true", 0⟩, ⟨.repairs, "", "/usr/bin/true", 0⟩]

theorem claim_C9_witness :
    c9Regs.map Rego.ntype = [NType.events, NType.repairs] :=
  ((claim_C9_dual_registration L0 c9Flags c9St c9Regs rfl rfl).1
    (Or.inl ⟨[NFlag.add, NFlag.cmd "/usr/bin/true"], "all", [], rfl, rfl,
      fun s2 h => absurd h (List.not_mem_nil _)⟩)).1

/-! ## Claim C4: severity validation -/

/-- C4 fails on the code as stated: in the notification tool (the program
that contains the translator), `--severity=9` is not rejected at the
flag-parsing boundary — the `'E'` arm stores the argument without any check —
and the translator appends `severity>=9` to the filter. -/
theorem claim_C4_counterexample :
    parseFlags {} [NFlag.sev "9"] = .ok { tSev := some "9", addFlags := 1 } ∧
    typeMatch L0 { typeTmp := none, tSev := some "9", servicable := 0 } =
      " severity>=9" :=
  ⟨rfl, rfl⟩

/-- C4 amended: the notify tool's flag parser accepts every `--severity`
argument without validation, and its translator appends a
`severity>=<arg>` clause for every argument alike; only the v0.2.9 query
tool (`v29_servicelog`, which has no translator) rejects severity values
outside `[1,7]` at its flag-parsing boundary, via `valid_arg` with
`max = 8`. -/
theorem claim_C4_severity_unvalidated :
    (∀ (st : PState) (s : String),
      stepFlag st (.sev s) =
        .ok { st with tSev := some s, addFlags := st.addFlags + 1 }) ∧
    (∀ (L : Lib) (t : Option String) (s : String) (sv : ℕ),
      clauses L { typeTmp := t, tSev := some s, servicable := sv } =
        (typeClauseOf L t ++ [" severity>=" ++ s]) ++ servClauseOf sv) ∧
    (∀ v : ℤ, valid_arg v 8 = true ↔ 1 ≤ v ∧ v ≤ 7) := by
  refine ⟨fun st s => rfl, fun L t s sv => rfl, fun v => ?_⟩
  simp only [valid_arg, decide_eq_true_eq]
  omega

/-! ## Claim C5: tri-state selectors and the filter -/

/-- C5 fails on the code as stated: `--repair_action=yes` contributes no
clause to the synthesized filter at all (the filter stays empty and contains
no `repaired`/`closed` text); the repair-action tri-state only chooses which
notification registrations are created. -/
theorem claim_C5_counterexample :
    parseFlags {} [NFlag.rep "yes"] =
      .ok { notifyFlag := TYPE_REPAIRS, addFlags := 1 } ∧
    typeMatch L0 { typeTmp := none, tSev := none, servicable := 0 } = "" ∧
    hasSub "repaired" "" = false ∧ hasSub "closed" "" = false :=
  ⟨rfl, rfl, rfl, rfl⟩

/-- C5 amended: for the serviceable tri-state, `all` contributes no clause
and `yes`/`no` contribute exactly one boolean-equality clause
(`serviceable=1` / `serviceable=0`); the repair-action tri-state never
contributes a clause — a `--repair_action` flag leaves the translator's
inputs (type, severity, serviceable) unchanged. -/
theorem claim_C5_tristate_clauses :
    (servClauseOf SL_QUERY_ALL = [] ∧
      servClauseOf SL_QUERY_YES = [" serviceable=1"] ∧
      servClauseOf SL_QUERY_NO = [" serviceable=0"]) ∧
    (∀ (st : PState) (s : String) (st' : PState),
      stepFlag st (.rep s) = .ok st' → filterInOf st' = filterInOf st) := by
  refine ⟨⟨rfl, rfl, rfl⟩, fun st s st' h => ?_⟩
  simp only [stepFlag] at h
  split_ifs at h <;> first
    | exact Except.noConfusion h
    | (injection h with h2; subst h2; rfl)

theorem claim_C5_witness :
    filterInOf { notifyFlag := 2, addFlags := 1 } = filterInOf {} :=
  claim_C5_tristate_clauses.2 {} "yes" { notifyFlag := 2, addFlags := 1 } rfl
